import Mathlib

/-!
A verification development of the `bright` off-screen renderer.

The Python sources (`bright/core.py`, `bright/mesh.py`, `bright/__init__.py`)
are shallowly embedded: machine integers become `Nat`/`Int` with explicit
`% 2 ^ 32` where the `np.uint32` cast matters, `float` data becomes `ℚ`
(the code only stores and forwards these values, it never computes with
them), Python exceptions become `Except PyErr`, and the GPU rasteriser —
which the code delegates wholesale to the OpenGL driver — is an abstract
function parameter acting on the framebuffer bytes.
-/

namespace Bright

/-- The Python exceptions that the embedded code paths can raise. -/
inductive PyErr where
  | typeError
  | valueError
  | nameError
deriving DecidableEq, Repr

/-- A Python value passed where the code expects a number or an array-like
argument: a Python `int`, a flat sequence of numbers (modelled with exact
rationals), or an object that is neither orderable against an integer nor
convertible to a numeric numpy array. -/
inductive PyVal where
  | pyInt (n : Int)
  | floatList (xs : List ℚ)
  | nonNumeric
deriving DecidableEq, Repr

/-- A numpy float array: its shape together with the flattened data. -/
structure NpFloatArr where
  shape : List Nat
  data : List ℚ
deriving DecidableEq, Repr

/-- The result of `np.array(v, dtype='f4')`: a Python scalar becomes a 0-d
array, a flat list of numbers a 1-d array; an object that is not a nested
number sequence raises `TypeError`/`ValueError` (returned here as `none`).
Note that the conversion succeeds for sequences of every length — numpy
imposes no shape requirement. -/
def toFloatArray : PyVal → Option NpFloatArr
  | .pyInt n => some ⟨[], [(n : ℚ)]⟩
  | .floatList xs => some ⟨[xs.length], xs⟩
  | .nonNumeric => none

/-- `max(1, v)` followed by `np.uint32(...)` as in `Camera.__init__` and
`Frame.__init__` (core.py lines 39-52 and 142-155): `TypeError` and
`ValueError` from either step are caught and re-raised as `TypeError`;
the `np.uint32` cast of a Python int wraps modulo `2 ^ 32` (C-style
conversion). A non-numeric value, or a list, is not orderable against the
integer `1`, so `max` raises `TypeError`. -/
def coerceDim : PyVal → Except PyErr Nat
  | .pyInt n => .ok ((max 1 n).toNat % 2 ^ 32)
  | .floatList _ => .error .typeError
  | .nonNumeric => .error .typeError

/-- `pyrr` matrices are modelled by their construction arguments: the code
builds them, uploads them as shader uniforms and never inspects entries. -/
inductive Mat44 where
  | lookAt (location target : NpFloatArr) (up : List Int)
  | perspective (fov aspect near far : ℚ)
deriving DecidableEq, Repr

/-- `Camera` (core.py lines 11-121): location, target, the stored `_width`
and `_height` (already coerced), and the fixed fields set at the end of
`__init__`. The `width` and `height` properties of `Camera` return the
matching stored fields, so they are modelled by the projections. -/
structure Camera where
  location : NpFloatArr
  target : NpFloatArr
  width : Nat
  height : Nat
  up : List Int
  fov : ℚ
  clipNear : ℚ
  clipFar : ℚ
deriving DecidableEq, Repr

/-- The `location` property setter (core.py lines 71-87): attempt
`np.array(location, dtype='f4')`; on failure raise `TypeError` before
the assignment, leaving the camera unchanged; on success store the
converted array, whatever its shape. -/
def Camera.setLocation (c : Camera) (v : PyVal) : Except PyErr Camera :=
  match toFloatArray v with
  | none => .error .typeError
  | some a => .ok { c with location := a }

/-- The `target` property setter (core.py lines 94-110), identical to the
`location` setter except for the stored field. -/
def Camera.setTarget (c : Camera) (v : PyVal) : Except PyErr Camera :=
  match toFloatArray v with
  | none => .error .typeError
  | some a => .ok { c with target := a }

/-- `Camera.__init__` (core.py lines 13-59): coerce `height`, then `width`,
then run the `location` and `target` setters, then set the fixed fields
`up = [0, 1, 0]`, `fov = 45.0`, `clip = (1, 1e9)`. -/
def Camera.init (location target width height : PyVal) : Except PyErr Camera := do
  let h ← coerceDim height
  let w ← coerceDim width
  let base : Camera :=
    { location := ⟨[], []⟩, target := ⟨[], []⟩, width := w, height := h,
      up := [0, 1, 0], fov := 45, clipNear := 1, clipFar := 1000000000 }
  let c1 ← base.setLocation location
  let c2 ← c1.setTarget target
  .ok c2

/-- The `view` property (core.py lines 112-116):
`pyrr.matrix44.create_look_at(location, target, up)`. -/
def Camera.view (c : Camera) : Mat44 := .lookAt c.location c.target c.up

/-- `Frame` (core.py lines 124-220).  `widthPx` and `heightPx` are the
stored `_width` and `_height`; `tex` is the RGBA8 colour texture, one
byte per channel, flat, bottom row first (the native OpenGL origin is
bottom-left), of length `widthPx * heightPx * 4`.  The background is the
RGBA 4-tuple handed to `glClearColor`.  The depth attachment and the GL
object handles play no part in any observable behaviour modelled here. -/
structure Frame where
  widthPx : Nat
  heightPx : Nat
  background : ℚ × ℚ × ℚ × ℚ
  tex : List Nat
deriving DecidableEq, Repr

/-- `Frame.__init__` (core.py lines 126-184): the same dimension coercion
as `Camera`, then allocation of a `width × height` RGBA8 colour texture.
The GL spec leaves freshly allocated texture contents unspecified; they
are modelled as zero bytes, which no theorem below depends on. -/
def Frame.init (width height : PyVal) (background : ℚ × ℚ × ℚ × ℚ) :
    Except PyErr Frame := do
  let h ← coerceDim height
  let w ← coerceDim width
  .ok ⟨w, h, background, List.replicate (w * h * 4) 0⟩

/-- The `height` property (core.py lines 202-205): returns `self._height`. -/
def Frame.height (f : Frame) : Nat := f.heightPx

/-- The `width` property (core.py lines 207-210): the source returns
`self._height`, not `self._width`. -/
def Frame.width (f : Frame) : Nat := f.heightPx

/-- `glGetTexImage(GL_TEXTURE_2D, 0, GL_RGB, GL_UNSIGNED_BYTE)` on the RGBA8
colour texture: one RGB byte triple per texel, the alpha byte dropped,
tightly packed in texel order. -/
def rgbaToRGB : List Nat → List Nat
  | r :: g :: b :: _ :: rest => r :: g :: b :: rgbaToRGB rest
  | _ => []

/-- An image as numpy sees it after the reshape: rows of pixels of channels. -/
abbrev Image := List (List (List Nat))

/-- Split a list into consecutive chunks of `n` elements (`n` is positive at
every use site). -/
def chunkList (n : Nat) : List α → List (List α)
  | [] => []
  | x :: xs => (x :: xs.take (n - 1)) :: chunkList n (xs.drop (n - 1))
termination_by l => l.length
decreasing_by simp only [List.length_drop, List.length_cons]; omega

/-- `np.ndarray.reshape` to a three-dimensional shape `(a, b, c)`: succeeds
exactly when the element count matches, otherwise numpy raises
`ValueError`. -/
def npReshape3 (data : List Nat) (a b c : Nat) : Except PyErr Image :=
  if data.length = a * b * c then .ok (chunkList b (chunkList c data))
  else .error .valueError

/-- The `color` property (core.py lines 186-195): read the texture back as
flat RGB bytes, `np.frombuffer`, then
`reshape((self.height, self.width, 3))` — where `self.width` is the
`width` property, which returns the stored height — then `[::-1]`
reverses the order of the rows. -/
def Frame.color (f : Frame) : Except PyErr Image :=
  (npReshape3 (rgbaToRGB f.tex) f.height f.width 3).map List.reverse

/-- The GL conversion of a float clear-colour channel to an unsigned
normalised byte: clamp to `[0, 1]`, scale by 255, round to nearest. -/
def q255 (c : ℚ) : Nat := (round (255 * max 0 (min 1 c))).toNat

/-- `n` copies of a pixel, flattened. -/
def repeatPix (p : List Nat) : Nat → List Nat
  | 0 => []
  | n + 1 => p ++ repeatPix p n

/-- The mutable global GL state that the embedded code touches: the bound
shader program, the blend and depth-test toggles, the viewport, the clear
colour, and the two matrix uniforms.  Framebuffer binding is implicit:
each clear and draw below acts on the frame owned by the renderer that
issued it, exactly as in the single-context source. -/
structure GLState where
  program : Nat
  blend : Bool
  depthTest : Bool
  viewport : Nat × Nat
  clearCol : ℚ × ℚ × ℚ × ℚ
  uniforms : Option (Mat44 × Mat44)
deriving DecidableEq, Repr

/-- `Frame.clear` (core.py lines 212-216): bind the framebuffer,
`glClearColor(*background)`, clear the colour and depth buffers.  Every
texel of the colour attachment becomes the background colour converted
to unsigned-normalised bytes. -/
def Frame.clear (f : Frame) (gl : GLState) : Frame × GLState :=
  let px := [q255 f.background.1, q255 f.background.2.1,
             q255 f.background.2.2.1, q255 f.background.2.2.2]
  ({ f with tex := repeatPix px (f.widthPx * f.heightPx) },
   { gl with clearCol := f.background })

/-- `bright.mesh.Mesh` (mesh.py lines 17-66): vertices, triangular faces and
per-vertex RGBA colours.  The GPU buffer objects hold exactly this data
interleaved and are not modelled separately. -/
structure Mesh where
  vertices : List (List ℚ)
  faces : List (List Nat)
  colors : List (List ℚ)
deriving DecidableEq, Repr

/-- `Mesh.__init__` (mesh.py lines 19-26): the `nimesh.Mesh` base class
records the vertices and faces, with `nb_vertices` the number of vertex
rows; when no colours are given every vertex gets the default
`np.ones((nb_vertices, 4))` — opaque white. -/
def Mesh.init (vertices : List (List ℚ)) (faces : List (List Nat))
    (colors : Option (List (List ℚ))) : Mesh :=
  { vertices := vertices, faces := faces,
    colors :=
      match colors with
      | none => List.replicate vertices.length (List.replicate 4 1)
      | some cs => cs }

/-- What one `mesh.draw()` call sees of the global GL state: the viewport,
the blend and depth toggles and the two matrix uniforms in force while
`Renderer.render` iterates over its meshes. -/
structure DrawCtx where
  viewport : Nat × Nat
  blend : Bool
  depthTest : Bool
  viewMatrix : Mat44
  projMatrix : Mat44
deriving DecidableEq, Repr

/-- The GPU rasteriser, abstracted: given the draw context, one mesh and the
current framebuffer bytes, produce the framebuffer bytes after the
indexed triangle draw.  The OpenGL driver guarantees this is a function
of exactly these inputs. -/
abbrev RasterFun := DrawCtx → Mesh → List Nat → List Nat

/-- `bright.mesh.Renderer` together with its `bright.core.Renderer` base
(core.py lines 234-265, mesh.py lines 69-104): one camera, the owned
frame, the ordered meshes and the compiled shader program handle. -/
structure Renderer where
  camera : Camera
  frame : Frame
  meshes : List Mesh
  shader : Nat
deriving DecidableEq, Repr

/-- `Renderer.__init__` (core.py lines 235-250 and mesh.py lines 71-104):
the frame is sized from the camera's current width and height — these are
`np.uint32` values, fed back through `Frame.__init__`'s coercion — and
the fixed shader pair is compiled, modelled as program handle 1. -/
def Renderer.init (camera : Camera) (meshes : List Mesh)
    (background : ℚ × ℚ × ℚ × ℚ) : Except PyErr Renderer := do
  let f ← Frame.init (.pyInt (camera.width : Int)) (.pyInt (camera.height : Int)) background
  .ok ⟨camera, f, meshes, 1⟩

/-- `Renderer.render` (mesh.py lines 106-129): use the shader, clear the
frame, set the viewport, enable blending and depth testing, build the
perspective matrix from fov, aspect `width / height` and the clip planes,
fetch the view matrix from the camera, upload both as uniforms, draw
every mesh in collection order, then disable blending and depth testing. -/
def Renderer.render (raster : RasterFun) (r : Renderer) (gl : GLState) :
    Renderer × GLState :=
  let gl1 : GLState := { gl with program := r.shader }
  let fc := r.frame.clear gl1
  let projM : Mat44 :=
    .perspective r.camera.fov ((r.camera.width : ℚ) / (r.camera.height : ℚ))
      r.camera.clipNear r.camera.clipFar
  let viewM := r.camera.view
  let ctx : DrawCtx :=
    { viewport := (r.camera.width, r.camera.height), blend := true,
      depthTest := true, viewMatrix := viewM, projMatrix := projM }
  let tex1 := r.meshes.foldl (fun t m => raster ctx m t) fc.1.tex
  ({ r with frame := { fc.1 with tex := tex1 } },
   { fc.2 with viewport := (r.camera.width, r.camera.height),
               uniforms := some (viewM, projM), blend := false,
               depthTest := false })

/-- The Python loop variable after a `for` loop: the last element iterated,
or unbound (`none`) when the iterable was empty. -/
def lastElem : List α → Option α
  | [] => none
  | [a] => some a
  | _ :: b :: l => lastElem (b :: l)

/-- The inner loop of the driver (`bright/__init__.py` lines 43-44):
`for renderer in renderers: renderer.render()`, threading the global GL
state left to right and returning the updated renderer objects in order. -/
def renderAll (raster : RasterFun) : List Renderer → GLState → List Renderer × GLState
  | [], gl => ([], gl)
  | r :: rs, gl =>
    let p := Renderer.render raster r gl
    let q := renderAll raster rs p.2
    (p.1 :: q.1, q.2)

/-- One iteration of the driver's outer loop (`bright/__init__.py` lines
41-46): render every renderer, then `frames.append(renderer.frame.color)`
— `renderer` being the inner loop variable, hence the last renderer, and
unbound (`NameError`) when the collection is empty. -/
def renderStep (raster : RasterFun) (rs : List Renderer) (gl : GLState) :
    Except PyErr (Image × List Renderer × GLState) :=
  let p := renderAll raster rs gl
  match lastElem p.1 with
  | none => .error .nameError
  | some r => (Frame.color r.frame).map (fun img => (img, p.1, p.2))

/-- The outer loop of the driver, by remaining iteration count. -/
def renderLoop (raster : RasterFun) :
    Nat → List Renderer → GLState → Except PyErr (List Image × List Renderer × GLState)
  | 0, rs, gl => .ok ([], rs, gl)
  | n + 1, rs, gl => do
    let (img, rs', gl') ← renderStep raster rs gl
    let (imgs, rs'', gl'') ← renderLoop raster n rs' gl'
    .ok (img :: imgs, rs'', gl'')

/-- `bright.render(renderers, start, stop)` (`bright/__init__.py` lines
22-48): `for frame_number in range(start, stop)` runs the body
`(stop - start).toNat` times; `frame_number` is never read. -/
def render (raster : RasterFun) (renderers : List Renderer) (start stop : Int)
    (gl : GLState) : Except PyErr (List Image × List Renderer × GLState) :=
  renderLoop raster (stop - start).toNat renderers gl

/-- Iterate the inner rendering pass: `stepN raster n (rs, gl)` is the state
after `n` whole passes in which every renderer was stepped once, in
collection order. -/
def stepN (raster : RasterFun) : Nat → List Renderer × GLState → List Renderer × GLState
  | 0, p => p
  | n + 1, p => stepN raster n (renderAll raster p.1 p.2)

/-- `mapM` for `Except PyErr`, written out so its equations unfold plainly. -/
def exceptMapM (f : α → Except PyErr β) : List α → Except PyErr (List β)
  | [] => .ok []
  | a :: l => do
    let b ← f a
    let bs ← exceptMapM f l
    .ok (b :: bs)

/-- The colour image of the last renderer of a pass, `NameError` when the
pass had no renderer to bind the loop variable. -/
def lastColor (p : List Renderer × GLState) : Except PyErr Image :=
  match lastElem p.1 with
  | none => .error .nameError
  | some r => Frame.color r.frame

/-- The image the spec assigns to frame index `i`: the colour of the last
renderer after `i + 1` whole passes over the collection. -/
def specImg (raster : RasterFun) (p : List Renderer × GLState) (i : Nat) :
    Except PyErr Image :=
  lastColor (stepN raster (i + 1) p)

/-- Spec-side restatement of the driver (spec section 4.5), stated from the
spec's words for the refinement proof: for each frame index `i` of the
range, every renderer is stepped once in collection order — all renderers
per index, not one full pass per renderer — and the image collected for
that index is the colour of the **last** renderer after that index's
pass; the images are returned in index order, alongside the renderer and
GL states after all passes. -/
def renderSpec (raster : RasterFun) (rs : List Renderer) (gl : GLState) (count : Nat) :
    Except PyErr (List Image × List Renderer × GLState) :=
  (exceptMapM (specImg raster (rs, gl)) (List.range count)).map
    (fun imgs => (imgs, stepN raster count (rs, gl)))

/-- A fixed RGBA background used by concrete instances below. -/
def bg0 : ℚ × ℚ × ℚ × ℚ := (0, 0, 0, 0)

/-- A concrete camera for concrete instances: 2 × 2 output, at `(0,0,3)`
looking at the origin. -/
def sampleCamera : Camera :=
  { location := ⟨[3], [0, 0, 3]⟩, target := ⟨[3], [0, 0, 0]⟩, width := 2, height := 2,
    up := [0, 1, 0], fov := 45, clipNear := 1, clipFar := 1000000000 }

/-- A rasteriser that leaves the framebuffer unchanged (a draw whose
geometry misses every pixel). -/
def idRaster : RasterFun := fun _ _ t => t

/-- A concrete initial GL state. -/
def gl0 : GLState :=
  { program := 0, blend := false, depthTest := false, viewport := (0, 0),
    clearCol := (0, 0, 0, 0), uniforms := none }

/-- A concrete renderer over `sampleCamera` with a square 2 × 2 frame and no
meshes. -/
def sampleRenderer : Renderer :=
  { camera := sampleCamera,
    frame := ⟨2, 2, bg0, List.replicate 16 0⟩,
    meshes := [], shader := 1 }

/-- The frame produced by `Frame.init` for width 2 and height 3. -/
def frame23 : Frame := ⟨2, 3, bg0, List.replicate 24 0⟩

/-! ## Helper lemmas -/

theorem exceptBind_ok (a : α) (f : α → Except PyErr β) :
    (Except.ok a >>= f) = f a := rfl

theorem exceptBind_err (e : PyErr) (f : α → Except PyErr β) :
    ((Except.error e : Except PyErr α) >>= f) = .error e := rfl

theorem exceptMap_ok (f : α → β) (a : α) :
    (Except.ok a : Except PyErr α).map f = .ok (f a) := rfl

theorem exceptMap_err (f : α → β) (e : PyErr) :
    (Except.error e : Except PyErr α).map f = .error e := rfl

theorem lastElem_mem : ∀ {l : List α} {a : α}, lastElem l = some a → a ∈ l
  | [], _, h => Option.noConfusion h
  | [_], _, h => by
      simp only [lastElem, Option.some.injEq] at h
      simp [h]
  | _ :: b :: l, a, h => by
      have : lastElem (b :: l) = some a := h
      exact List.mem_cons_of_mem _ (lastElem_mem this)

theorem lastElem_of_ne_nil : ∀ {l : List α}, l ≠ [] → ∃ a, lastElem l = some a
  | [], h => absurd rfl h
  | [a], _ => ⟨a, rfl⟩
  | _ :: b :: l, _ => @lastElem_of_ne_nil _ (b :: l) (List.cons_ne_nil b l)

theorem rgbaToRGB_length : ∀ (k : Nat) (l : List Nat), l.length = 4 * k →
    (rgbaToRGB l).length = 3 * k := by
  intro k
  induction k with
  | zero =>
      intro l h
      have : l = [] := List.length_eq_zero.mp (by omega)
      subst this
      rfl
  | succ k ih =>
      intro l h
      match l with
      | [] => simp at h
      | [a] => simp at h; omega
      | [a, b] => simp at h; omega
      | [a, b, c] => simp at h; omega
      | a :: b :: c :: d :: tl =>
          have htl : tl.length = 4 * k := by
            simp only [List.length_cons] at h
            omega
          simp only [rgbaToRGB, List.length_cons, ih tl htl]
          omega

theorem repeatPix_length (p : List Nat) : ∀ n, (repeatPix p n).length = n * p.length := by
  intro n
  induction n with
  | zero => simp [repeatPix]
  | succ n ih =>
      simp only [repeatPix, List.length_append, ih]
      ring

theorem frame_init_ok (wv hv : PyVal) (bg : ℚ × ℚ × ℚ × ℚ) (f : Frame)
    (h : Frame.init wv hv bg = .ok f) :
    ∃ w h2, coerceDim wv = .ok w ∧ coerceDim hv = .ok h2
      ∧ f = ⟨w, h2, bg, List.replicate (w * h2 * 4) 0⟩ := by
  cases wv <;> cases hv <;>
    first
      | exact Except.noConfusion h
      | exact ⟨_, _, rfl, rfl, (Except.ok.inj h).symm⟩

/-! ## Claim theorems -/

/-- C8: a `Mesh` constructed with `N` vertices and no colors argument has a
colors attribute equal to an `N × 4` array in which every entry is 1
(opaque white for every vertex). -/
theorem mesh_default_colors (vertices : List (List ℚ)) (faces : List (List Nat)) :
    (Mesh.init vertices faces none).colors
      = List.replicate vertices.length (List.replicate 4 1) := rfl

/-- C9: for every `Frame` constructed with width `w` and height `h`, the
public `width` property returns the stored height rather than `w`, so
`frame.width` always equals `frame.height`, and when the stored width and
height differ the `width` property does not return the stored width. -/
theorem frame_width_is_height (wv hv : PyVal) (bg : ℚ × ℚ × ℚ × ℚ) (f : Frame)
    (h : Frame.init wv hv bg = .ok f) :
    Frame.width f = f.heightPx ∧ Frame.width f = Frame.height f ∧
      (f.widthPx ≠ f.heightPx → Frame.width f ≠ f.widthPx) ∧
      (∀ w h2, coerceDim wv = .ok w → coerceDim hv = .ok h2 →
        f.widthPx = w ∧ f.heightPx = h2) := by
  refine ⟨rfl, rfl, fun hne e => hne e.symm, fun w h2 hw hh => ?_⟩
  obtain ⟨w', h2', hw', hh', rfl⟩ := frame_init_ok wv hv bg f h
  exact ⟨(Except.ok.inj (hw.symm.trans hw')).symm,
         (Except.ok.inj (hh.symm.trans hh')).symm⟩

/-- C9 witness: the concrete frame built from width 2 and height 3. -/
theorem frame_width_is_height_witness :
    Frame.width frame23 = frame23.heightPx ∧ Frame.width frame23 = Frame.height frame23 ∧
      (frame23.widthPx ≠ frame23.heightPx → Frame.width frame23 ≠ frame23.widthPx) ∧
      (∀ w h2, coerceDim (.pyInt 2) = .ok w → coerceDim (.pyInt 3) = .ok h2 →
        frame23.widthPx = w ∧ frame23.heightPx = h2) :=
  frame_width_is_height (.pyInt 2) (.pyInt 3) bg0 frame23 rfl

/-- C1, evaluated at the failing input: the frame constructed with width 2
and height 3 does not return a `(3, 2, 3)` array from `color` — the
`width` property returns the stored height, so the 18 read-back bytes are
reshaped to `(3, 3, 3)` and numpy raises `ValueError`. -/
theorem frame_color_width_defect :
    (Frame.init (.pyInt 2) (.pyInt 3) bg0).map Frame.color
      = .ok (.error .valueError) := rfl

/-- C6, evaluated at the failing input: the frame constructed with width 3
and height 2 reshapes its 18 read-back bytes to `(2, 2, 3)` instead of
`(2, 3, 3)`, so `color` raises `ValueError` instead of reshaping to
`(height, width, 3)` and reversing the rows. -/
theorem frame_color_reshape_defect :
    (Frame.init (.pyInt 3) (.pyInt 2) bg0).map Frame.color
      = .ok (.error .valueError) := rfl

/-- C4 counterexample: assigning a 2-float list — not convertible to a
3-float vector — to the location setter does not raise a `TypeError`; the
setter stores the converted 2-element array. -/
theorem camera_set_location_two_vector_cex :
    sampleCamera.setLocation (.floatList [1, 2])
      = .ok { sampleCamera with location := ⟨[2], [1, 2]⟩ } := rfl

/-- C4 as amended: the location and target setters raise `TypeError` — and
return no updated camera — exactly for values not convertible to a numpy
float array of any shape; every convertible value is stored as the
converted array, with no check that it is a 3-vector. -/
theorem camera_setter_corrected (c : Camera) (v : PyVal) :
    (toFloatArray v = none →
        c.setLocation v = .error .typeError ∧ c.setTarget v = .error .typeError)
    ∧ (∀ a, toFloatArray v = some a →
        c.setLocation v = .ok { c with location := a }
          ∧ c.setTarget v = .ok { c with target := a }) := by
  cases v <;>
    refine ⟨fun h => ?_, fun a ha => ?_⟩ <;>
    simp_all [Camera.setLocation, Camera.setTarget, toFloatArray]

/-- C4 witness: a concrete convertible value is stored by the setter. -/
theorem camera_setter_corrected_witness :
    sampleCamera.setLocation (.floatList [5])
      = .ok { sampleCamera with location := ⟨[1], [5]⟩ } :=
  ((camera_setter_corrected sampleCamera (.floatList [5])).2 ⟨[1], [5]⟩ rfl).1

/-- C5 counterexample: constructing a `Camera` whose location is a 2-float
list — not coercible to a 3-vector of floats — does not raise a
`TypeError`; construction succeeds and stores the 2-element array. -/
theorem camera_init_two_vector_cex :
    Camera.init (.floatList [1, 2]) (.floatList [0, 0, 0]) (.pyInt 4) (.pyInt 4)
      = .ok { location := ⟨[2], [1, 2]⟩, target := ⟨[3], [0, 0, 0]⟩, width := 4, height := 4,
              up := [0, 1, 0], fov := 45, clipNear := 1, clipFar := 1000000000 } := rfl

/-- C5 as amended: integer width and height arguments are clamped to a
minimum of 1 and then reduced modulo `2 ^ 32` by the `np.uint32` cast (so
the stored value is at least 1 whenever the clamped argument is below
`2 ^ 32`); every construction failure raises `TypeError`; and construction
succeeds exactly when width and height are coercible and location and
target are convertible to numpy float arrays of any shape — no 3-vector
check is performed. -/
theorem camera_init_corrected (wN hN : Int) (loc tgt : PyVal) (la ta : NpFloatArr)
    (hl : toFloatArray loc = some la) (ht : toFloatArray tgt = some ta) :
    Camera.init loc tgt (.pyInt wN) (.pyInt hN)
      = .ok { location := la, target := ta,
              width := (max 1 wN).toNat % 2 ^ 32, height := (max 1 hN).toNat % 2 ^ 32,
              up := [0, 1, 0], fov := 45, clipNear := 1, clipFar := 1000000000 }
    ∧ (∀ l t wv hv e, Camera.init l t wv hv = .error e → e = .typeError)
    ∧ (∀ l t wv hv, (∃ c, Camera.init l t wv hv = .ok c) ↔
        ((∃ w, coerceDim wv = .ok w) ∧ (∃ h2, coerceDim hv = .ok h2)
          ∧ (∃ a, toFloatArray l = some a) ∧ (∃ b, toFloatArray t = some b)))
    ∧ (max 1 wN < 2 ^ 32 → 1 ≤ (max 1 wN).toNat % 2 ^ 32)
    ∧ (max 1 hN < 2 ^ 32 → 1 ≤ (max 1 hN).toNat % 2 ^ 32) := by
  refine ⟨?_, ?_, ?_, ?_, ?_⟩
  · simp only [Camera.init, coerceDim, Camera.setLocation, Camera.setTarget, hl, ht,
      exceptBind_ok]
  · intro l t wv hv e h
    cases wv <;> cases hv <;> cases l <;> cases t <;>
      simp only [Camera.init, coerceDim, Camera.setLocation, Camera.setTarget,
        toFloatArray, exceptBind_ok, exceptBind_err] at h <;>
      first
        | exact Except.noConfusion h
        | exact (Except.error.inj h).symm
  · intro l t wv hv
    cases wv <;> cases hv <;> cases l <;> cases t <;>
      simp only [Camera.init, coerceDim, Camera.setLocation, Camera.setTarget,
        toFloatArray, exceptBind_ok, exceptBind_err, Except.ok.injEq] <;>
      constructor <;> intro h <;>
      simp_all
  · intro h
    have h1 : (1 : Int) ≤ max 1 wN := le_max_left 1 wN
    omega
  · intro h
    have h1 : (1 : Int) ≤ max 1 hN := le_max_left 1 hN
    omega

/-- C5 witness: a concrete construction with a negative height (clamped to 1)
and convertible location and target. -/
theorem camera_init_corrected_witness :
    Camera.init (.floatList [0, 0, 3]) (.floatList [0, 0, 0]) (.pyInt 7) (.pyInt (-2))
      = .ok { location := ⟨[3], [0, 0, 3]⟩, target := ⟨[3], [0, 0, 0]⟩,
              width := (max 1 (7 : Int)).toNat % 2 ^ 32,
              height := (max 1 (-2 : Int)).toNat % 2 ^ 32,
              up := [0, 1, 0], fov := 45, clipNear := 1, clipFar := 1000000000 } :=
  (camera_init_corrected 7 (-2) (.floatList [0, 0, 3]) (.floatList [0, 0, 0])
    ⟨[3], [0, 0, 3]⟩ ⟨[3], [0, 0, 0]⟩ rfl rfl).1

/-- C7: calling `render()` twice in a row with no changes to the camera, the
meshes, or any other state between the two calls yields pixel-identical
`Frame.color` output after each call, for every rasteriser: the second
call re-clears the frame and rebuilds the whole draw context from the
unchanged camera and meshes, so nothing the first call wrote survives
into the second call's output. -/
theorem renderer_render_idempotent (raster : RasterFun) (r : Renderer) (gl : GLState) :
    ((Renderer.render raster (Renderer.render raster r gl).1
        (Renderer.render raster r gl).2).1).frame.color
      = ((Renderer.render raster r gl).1).frame.color := rfl

/-- The driver body with a nonzero iteration count over an empty renderer
collection fails immediately: the inner loop binds no loop variable. -/
theorem renderLoop_nil (raster : RasterFun) (n : Nat) (gl : GLState) :
    renderLoop raster (n + 1) [] gl = .error .nameError := rfl

/-- C10: calling the scene-level driver with an empty renderers collection
and `stop > start` raises `NameError` — the loop variable used to read
back the frame image is never bound — instead of returning images. -/
theorem render_empty_raises (raster : RasterFun) (gl : GLState) (start stop : Int)
    (h : start < stop) :
    render raster [] start stop gl = .error .nameError := by
  unfold render
  obtain ⟨n, hn⟩ : ∃ n, (stop - start).toNat = n + 1 :=
    ⟨(stop - start).toNat - 1, by omega⟩
  rw [hn]
  exact renderLoop_nil raster n gl

/-- C10 witness: the empty collection over the index range `[0, 2)`. -/
theorem render_empty_raises_witness :
    render idRaster [] 0 2 gl0 = .error .nameError :=
  render_empty_raises idRaster gl0 0 2 (by decide)

/-- C3 counterexample: with an empty renderers collection and the index
range `[0, 1)` the driver raises `NameError` instead of returning a
sequence of images of length `stop - start = 1`. -/
theorem render_empty_renderers_cex :
    render idRaster [] 0 1 gl0 = .error .nameError := rfl

/-! ## The driver refinement and its length property -/

theorem exceptMapM_map (g : α → β) (f : β → Except PyErr γ) :
    ∀ l : List α, exceptMapM f (l.map g) = exceptMapM (fun a => f (g a)) l := by
  intro l
  induction l with
  | nil => rfl
  | cons a l ih => simp only [List.map_cons, exceptMapM, ih]

theorem specImg_succ (raster : RasterFun) (rs : List Renderer) (gl : GLState) :
    (fun i => specImg raster (rs, gl) (i + 1)) = specImg raster (renderAll raster rs gl) :=
  funext fun _ => rfl

theorem renderLoop_eq_spec (raster : RasterFun) :
    ∀ (n : Nat) (rs : List Renderer) (gl : GLState),
      renderLoop raster n rs gl = renderSpec raster rs gl n := by
  intro n
  induction n with
  | zero => intro rs gl; rfl
  | succ n ih =>
      intro rs gl
      rw [renderSpec, List.range_succ_eq_map]
      simp only [exceptMapM, exceptMapM_map, specImg_succ]
      rcases hL : lastElem (renderAll raster rs gl).1 with _ | r
      · simp only [renderLoop, renderStep, hL, specImg, stepN, lastColor,
          exceptBind_err, exceptMap_err]
      · rcases hc : Frame.color r.frame with e | img
        · simp only [renderLoop, renderStep, hL, hc, specImg, stepN, lastColor,
            exceptBind_err, exceptBind_ok, exceptMap_err, exceptMap_ok]
        · simp only [renderLoop, renderStep, hL, hc, specImg, stepN, lastColor,
            exceptBind_ok, exceptMap_ok]
          rw [ih]
          simp only [renderSpec, Prod.mk.eta]
          rcases hM : exceptMapM (specImg raster (renderAll raster rs gl)) (List.range n)
            with e | bs
          · simp only [hM, exceptMap_err, exceptBind_err]
          · simp only [hM, exceptMap_ok, exceptBind_ok]

/-- C2: the scene-level driver equals its spec-side restatement: for every
frame index of `[start, stop)` it invokes `render()` on every renderer in
collection order (one whole pass per index) and collects, for that index,
the colour image of the last renderer iterated — one image per index,
images of the other renderers never collected. -/
theorem render_driver_last_image (raster : RasterFun) (rs : List Renderer)
    (start stop : Int) (gl : GLState) :
    render raster rs start stop gl = renderSpec raster rs gl (stop - start).toNat :=
  renderLoop_eq_spec raster (stop - start).toNat rs gl

theorem render_frame_dims (raster : RasterFun) (r : Renderer) (gl : GLState) :
    ((Renderer.render raster r gl).1).frame.widthPx = r.frame.widthPx
      ∧ ((Renderer.render raster r gl).1).frame.heightPx = r.frame.heightPx :=
  ⟨rfl, rfl⟩

theorem foldl_raster_length (raster : RasterFun)
    (hr : ∀ ctx m t, (raster ctx m t).length = t.length) (ctx : DrawCtx) :
    ∀ (ms : List Mesh) (t : List Nat),
      (List.foldl (fun t m => raster ctx m t) t ms).length = t.length := by
  intro ms
  induction ms with
  | nil => intro t; rfl
  | cons m ms ih => intro t; simp only [List.foldl_cons, ih, hr]

theorem render_tex_length (raster : RasterFun)
    (hr : ∀ ctx m t, (raster ctx m t).length = t.length) (r : Renderer) (gl : GLState) :
    ((Renderer.render raster r gl).1).frame.tex.length
      = r.frame.widthPx * r.frame.heightPx * 4 := by
  show (List.foldl (fun t m => raster
      { viewport := (r.camera.width, r.camera.height), blend := true, depthTest := true,
        viewMatrix := r.camera.view,
        projMatrix := .perspective r.camera.fov
          ((r.camera.width : ℚ) / (r.camera.height : ℚ)) r.camera.clipNear r.camera.clipFar }
      m t)
      (repeatPix [q255 r.frame.background.1, q255 r.frame.background.2.1,
        q255 r.frame.background.2.2.1, q255 r.frame.background.2.2.2]
        (r.frame.widthPx * r.frame.heightPx)) r.meshes).length
    = r.frame.widthPx * r.frame.heightPx * 4
  rw [foldl_raster_length raster hr, repeatPix_length]
  rfl

theorem render_color_ok (raster : RasterFun)
    (hr : ∀ ctx m t, (raster ctx m t).length = t.length) (r : Renderer) (gl : GLState)
    (hsq : r.frame.widthPx = r.frame.heightPx) :
    ∃ img, Frame.color ((Renderer.render raster r gl).1).frame = .ok img := by
  have hlen := render_tex_length raster hr r gl
  have hw : ((Renderer.render raster r gl).1).frame.widthPx = r.frame.widthPx :=
    (render_frame_dims raster r gl).1
  have hh : ((Renderer.render raster r gl).1).frame.heightPx = r.frame.heightPx :=
    (render_frame_dims raster r gl).2
  have hrgb : (rgbaToRGB ((Renderer.render raster r gl).1).frame.tex).length
      = 3 * (r.frame.widthPx * r.frame.heightPx) :=
    rgbaToRGB_length (r.frame.widthPx * r.frame.heightPx) _ (by rw [hlen]; ring)
  have hcond : (rgbaToRGB ((Renderer.render raster r gl).1).frame.tex).length
      = Frame.height ((Renderer.render raster r gl).1).frame
          * Frame.width ((Renderer.render raster r gl).1).frame * 3 := by
    rw [hrgb]
    unfold Frame.height Frame.width
    rw [hh, ← hsq]
    ring
  unfold Frame.color npReshape3
  rw [if_pos hcond]
  exact ⟨_, rfl⟩

theorem renderAll_length (raster : RasterFun) :
    ∀ (rs : List Renderer) (gl : GLState),
      ((renderAll raster rs gl).1).length = rs.length := by
  intro rs
  induction rs with
  | nil => intro gl; rfl
  | cons r rs ih => intro gl; simp only [renderAll, List.length_cons, ih]

theorem renderAll_mem (raster : RasterFun) :
    ∀ (rs : List Renderer) (gl : GLState) (r' : Renderer),
      r' ∈ (renderAll raster rs gl).1 →
      ∃ r0 gl0, r0 ∈ rs ∧ r' = (Renderer.render raster r0 gl0).1 := by
  intro rs
  induction rs with
  | nil => intro gl r' h; simp [renderAll] at h
  | cons r rs ih =>
      intro gl r' h
      simp only [renderAll, List.mem_cons] at h
      rcases h with h | h
      · exact ⟨r, gl, List.mem_cons_self r rs, h⟩
      · obtain ⟨r0, gl0, hm, he⟩ := ih _ r' h
        exact ⟨r0, gl0, List.mem_cons_of_mem r hm, he⟩

theorem renderLoop_len (raster : RasterFun)
    (hr : ∀ ctx m t, (raster ctx m t).length = t.length) :
    ∀ (n : Nat) (rs : List Renderer) (gl : GLState), rs ≠ [] →
      (∀ r ∈ rs, r.frame.widthPx = r.frame.heightPx) →
      ∃ imgs q, renderLoop raster n rs gl = .ok (imgs, q) ∧ imgs.length = n
        ∧ q.1 ≠ [] ∧ (∀ r ∈ q.1, r.frame.widthPx = r.frame.heightPx) := by
  intro n
  induction n with
  | zero => intro rs gl hne hsq; exact ⟨[], (rs, gl), rfl, rfl, hne, hsq⟩
  | succ n ih =>
      intro rs gl hne hsq
      have hne' : (renderAll raster rs gl).1 ≠ [] := by
        intro h
        apply hne
        apply List.length_eq_zero.mp
        rw [← renderAll_length raster rs gl, h]
        rfl
      have hsq' : ∀ r ∈ (renderAll raster rs gl).1,
          r.frame.widthPx = r.frame.heightPx := by
        intro r' hmem
        obtain ⟨r0, gl0, hm, rfl⟩ := renderAll_mem raster rs gl r' hmem
        exact ((render_frame_dims raster r0 gl0).1.trans (hsq r0 hm)).trans
          (render_frame_dims raster r0 gl0).2.symm
      obtain ⟨rl, hlast⟩ := lastElem_of_ne_nil hne'
      obtain ⟨r0, gl0, hm0, rfl⟩ := renderAll_mem raster rs gl rl (lastElem_mem hlast)
      obtain ⟨img, hc⟩ := render_color_ok raster hr r0 gl0 (hsq r0 hm0)
      obtain ⟨imgs, q, hloop, hlen2, hq1, hq2⟩ :=
        ih (renderAll raster rs gl).1 (renderAll raster rs gl).2 hne' hsq'
      refine ⟨img :: imgs, q, ?_, by rw [List.length_cons, hlen2], hq1, hq2⟩
      simp only [renderLoop, renderStep, hlast, hc, exceptMap_ok, exceptBind_ok, hloop,
        Prod.mk.eta]

/-- C3 as amended: for every nonempty collection of renderers in which every
renderer's frame is square — the `Frame.width` defect otherwise makes the
colour read-back raise `ValueError` — every length-preserving rasteriser,
and every index range with `start ≤ stop`, the driver returns an ordered
sequence of images whose length equals `stop - start`. -/
theorem render_length_corrected (raster : RasterFun)
    (hr : ∀ ctx m t, (raster ctx m t).length = t.length)
    (rs : List Renderer) (gl : GLState) (start stop : Int)
    (hne : rs ≠ []) (hsq : ∀ r ∈ rs, r.frame.widthPx = r.frame.heightPx)
    (hss : start ≤ stop) :
    ∃ out, render raster rs start stop gl = .ok out
      ∧ (out.1.length : Int) = stop - start := by
  obtain ⟨imgs, q, hloop, hlen, _, _⟩ :=
    renderLoop_len raster hr (stop - start).toNat rs gl hne hsq
  exact ⟨(imgs, q), hloop, by rw [hlen]; omega⟩

/-- C3 witness: one square renderer over the index range `[0, 2)`. -/
theorem render_length_corrected_witness :
    ∃ out, render idRaster [sampleRenderer] 0 2 gl0 = .ok out
      ∧ (out.1.length : Int) = 2 - 0 :=
  render_length_corrected idRaster (fun _ _ _ => rfl) [sampleRenderer] gl0 0 2
    (List.cons_ne_nil _ _)
    (by intro r h; rw [List.mem_singleton] at h; subst h; rfl)
    (by decide)

end Bright
